import Mathlib

/-!
Verification development for the ssh-api repository: a shallow embedding of
the shared SSH execution core (`exec_ssh.py`), the parameter and directory
validators shared by the two front-ends (`api/api.py`, `mcp/server.py`),
the HTTP `/run` handler, and the MCP JSON-RPC dispatch, together with
theorems settling the specification claims about them.

Modelling conventions:
- Python values arriving from JSON are modelled by the inductive `Value`
  (`null` is Python `None`; Python `bool` is a subtype of `int` in
  `isinstance` checks, reflected by `Value.isIntLike`).
- Dictionaries are association lists (`Dict`); `d.get(k)` is `pyGet`
  (absent key yields `null`, like Python `.get`), `d.get(k, dflt)` is
  `pyGetD`.
- The filesystem and `os.path.expanduser` are an abstract environment
  `FsEnv`, since they are external collaborators of the code.
- The operating system's behaviour when the SSH child process is spawned
  is an oracle `ProcBehavior` (spawn failure / timeout / completion);
  the wall clock is modelled in integer milliseconds, so Python's
  `round(x, 3)` of a duration in seconds is exact.
- Python exceptions escaping a call are modelled with `Except PyExc`.
-/

/-! ### Kernel-computable Python string primitives

Lean's built-in `String.trim`, `String.startsWith`, `String.splitOn` use
byte-position loops that the kernel cannot evaluate, so the Python string
operations the code relies on are modelled directly over the character
list of the string. -/

/-- Character-list version of "is a prefix of". -/
def chPre : List Char → List Char → Bool
  | [], _ => true
  | _ :: _, [] => false
  | a :: as, b :: bs => a == b && chPre as bs

/-- Character-list version of substring containment. -/
def chContains (pat : List Char) : List Char → Bool
  | [] => pat.isEmpty
  | h :: t => chPre pat (h :: t) || chContains pat t

/-- ASCII whitespace, as stripped by Python `str.strip` on the inputs in
scope. -/
def chIsSpace (c : Char) : Bool :=
  c.toNat == 32 || c.toNat == 9 || c.toNat == 13 || c.toNat == 10

/-- Python `s.strip()`. -/
def String.pyStrip (s : String) : String :=
  String.mk (((s.data.dropWhile chIsSpace).reverse.dropWhile chIsSpace).reverse)

/-- Python `len(s)` (number of characters). -/
def String.pyLen (s : String) : Nat := s.data.length

/-- Python `s.startswith(p)`. -/
def String.pyStartsWith (s p : String) : Bool := chPre p.data s.data

/-- Python `s.endswith(p)`. -/
def String.pyEndsWith (s p : String) : Bool := chPre p.data.reverse s.data.reverse

namespace SshApi

/-- Model of a Python/JSON value as received by the validators. -/
inductive Value where
  | null
  | bool (b : Bool)
  | int (n : Int)
  | str (s : String)
  | arr (xs : List Value)
  | obj (fs : List (String × Value))

/-- Python truthiness (`if x:`) for the modelled values. -/
def Value.truthy : Value → Bool
  | .null => false
  | .bool b => b
  | .int n => n != 0
  | .str s => s != ""
  | .arr xs => !xs.isEmpty
  | .obj fs => !fs.isEmpty

/-- Python `x is None`. -/
def Value.isNull : Value → Bool
  | .null => true
  | _ => false

/-- Python `isinstance(x, str)`. -/
def Value.isStr : Value → Bool
  | .str _ => true
  | _ => false

/-- Python `isinstance(x, int)`; `bool` is a subclass of `int` in Python. -/
def Value.isIntLike : Value → Bool
  | .int _ => true
  | .bool _ => true
  | _ => false

/-- Python `isinstance(x, bool)`. -/
def Value.isBool : Value → Bool
  | .bool _ => true
  | _ => false

/-- Python `isinstance(x, list)`. -/
def Value.isArr : Value → Bool
  | .arr _ => true
  | _ => false

/-- The underlying string of a string value (only used under an `isStr`
guard, mirroring Python's short-circuit `not isinstance(x, str) or ...`). -/
def Value.asStr : Value → String
  | .str s => s
  | _ => ""

/-- The integer value of an int-like value (`True` counts as 1, `False` as
0, as in Python arithmetic comparisons); only used under `isIntLike`. -/
def Value.asInt : Value → Int
  | .int n => n
  | .bool b => if b then 1 else 0
  | _ => 0

/-- The element list of an array value; only used under an `isArr` guard. -/
def Value.asArr : Value → List Value
  | .arr xs => xs
  | _ => []

/-- Python `x == s` for a string literal `s`: only a `str` compares equal. -/
def Value.eqStr : Value → String → Bool
  | .str s, t => s == t
  | _, _ => false

/-- A Python dictionary with string keys, as produced by JSON parsing. -/
abbrev Dict := List (String × Value)

/-- Python `d.get(k, dflt)`: the stored value when the key is present
(even when that value is `None`), else the default. -/
def pyGetD (d : Dict) (k : String) (dflt : Value) : Value :=
  (d.lookup k).getD dflt

/-- Python `d.get(k)`: `None` when the key is absent. -/
def pyGet (d : Dict) (k : String) : Value :=
  pyGetD d k .null

/-- Python substring test `pat in s`. -/
def pyContains (s pat : String) : Bool :=
  chContains pat.data s.data

/-! ### Validation constants (identical in api/api.py and mcp/server.py) -/

def MAX_COMMAND_LENGTH : Nat := 8192
def MAX_HOST_LENGTH : Nat := 253
def MAX_USER_LENGTH : Nat := 32
def MIN_TIMEOUT : Int := 1
def MAX_TIMEOUT : Int := 3600
def MAX_SSH_DIR_LENGTH : Nat := 4096

/-! ### validate_ssh_parameters (api/api.py lines 34-107; the copy in
mcp/server.py lines 40-113 is textually identical) -/

/-- Embedding of `validate_ssh_parameters`: returns `none` when valid,
`some errorMessage` for the first failing constraint. -/
def validate_ssh_parameters (data : Dict) : Option String :=
  if !(pyGet data "host").truthy then
    some "Missing required parameter: host"
  else if !(pyGet data "command").truthy then
    some "Missing required parameter: command"
  else if !(pyGet data "host").isStr || (pyGet data "host").asStr.pyStrip.pyLen == 0 then
    some "Host must be a non-empty string"
  else if (pyGet data "host").asStr.pyLen > MAX_HOST_LENGTH then
    some ("Host length exceeds maximum of " ++ toString MAX_HOST_LENGTH ++ " characters")
  else if !(pyGet data "command").isStr || (pyGet data "command").asStr.pyStrip.pyLen == 0 then
    some "Command must be a non-empty string"
  else if (pyGet data "command").asStr.pyLen > MAX_COMMAND_LENGTH then
    some ("Command length exceeds maximum of " ++ toString MAX_COMMAND_LENGTH ++ " characters")
  else if !(pyGet data "user").isNull &&
      (!(pyGet data "user").isStr || (pyGet data "user").asStr.pyLen > MAX_USER_LENGTH) then
    some ("User must be a string with maximum " ++ toString MAX_USER_LENGTH ++ " characters")
  else if !(pyGet data "port").isNull &&
      (!(pyGet data "port").isIntLike || (pyGet data "port").asInt < 1 ||
        (pyGet data "port").asInt > 65535) then
    some "Port must be an integer between 1 and 65535"
  else if !(pyGetD data "timeout" (.int 60)).isIntLike ||
      (pyGetD data "timeout" (.int 60)).asInt < MIN_TIMEOUT ||
      (pyGetD data "timeout" (.int 60)).asInt > MAX_TIMEOUT then
    some ("Timeout must be an integer between " ++ toString MIN_TIMEOUT ++ " and "
      ++ toString MAX_TIMEOUT ++ " seconds")
  else if !(pyGet data "ssh_dir").isNull &&
      (!(pyGet data "ssh_dir").isStr || (pyGet data "ssh_dir").asStr.pyLen > MAX_SSH_DIR_LENGTH) then
    some ("SSH directory path must be a string with maximum " ++ toString MAX_SSH_DIR_LENGTH
      ++ " characters")
  else if !(pyGet data "strict_host_key_checking").isNull &&
      !((pyGet data "strict_host_key_checking").eqStr "yes" ||
        (pyGet data "strict_host_key_checking").eqStr "no" ||
        (pyGet data "strict_host_key_checking").eqStr "accept-new") then
    some "strict_host_key_checking must be one of: yes, no, accept-new"
  else if !(pyGet data "proxy_jump").isNull &&
      (!(pyGet data "proxy_jump").isStr || (pyGet data "proxy_jump").asStr.pyLen > MAX_HOST_LENGTH) then
    some ("Proxy jump must be a string with maximum " ++ toString MAX_HOST_LENGTH ++ " characters")
  else if !(pyGet data "allocate_tty").isNull && !(pyGet data "allocate_tty").isBool then
    some "allocate_tty must be a boolean"
  else if !(pyGet data "extra_opts").isNull && !(pyGet data "extra_opts").isArr then
    some "extra_opts must be an array"
  else if !(pyGet data "extra_opts").isNull &&
      (pyGet data "extra_opts").asArr.any (fun o => !o.isStr || o.asStr.pyLen > 256) then
    some "Each extra_opts item must be a string with maximum 256 characters"
  else
    none

/-! ### validate_ssh_directory (api/api.py lines 109-138; the copy in
mcp/server.py lines 115-144 is textually identical) -/

/-- Abstract filesystem / path environment, standing for the external
`os.path` collaborators of the code. `expanduser` models
`os.path.expanduser`, `isdir` models `os.path.isdir`, `readable` models
`os.access(-, os.R_OK)`, `fileExists` models `os.path.exists`. -/
structure FsEnv where
  expanduser : String → String
  isdir : String → Bool
  readable : String → Bool
  fileExists : String → Bool

/-- Embedding of `validate_ssh_directory`: `none` when valid, else the
error message. The allow-list membership test is Python
`any(expanded_path.startswith(p) for p in ["/home/", "/Users/", expanduser("~")])`,
a plain string-prefix test. -/
def validate_ssh_directory (env : FsEnv) (ssh_dir : String) : Option String :=
  if ssh_dir == "" then none
  else
    let expanded := env.expanduser ssh_dir
    let fsCheck : Option String :=
      if !env.isdir expanded then
        some ("SSH directory does not exist: " ++ expanded)
      else if !env.readable expanded then
        some ("SSH directory is not readable: " ++ expanded)
      else
        none
    if pyContains ssh_dir ".." || ssh_dir.pyStartsWith "/" then
      if !(["/home/", "/Users/", env.expanduser "~"].any (fun p => expanded.pyStartsWith p)) then
        some "SSH directory path not allowed"
      else
        fsCheck
    else
      fsCheck

/-! ### exec_ssh (exec_ssh.py) -/

/-- The constant "ephemeral & quiet" SSH defaults (exec_ssh.py lines 3-9). -/
def EPHEMERAL_DEFAULTS : List String :=
  ["-o", "BatchMode=yes",
   "-o", "UserKnownHostsFile=/dev/null",
   "-o", "StrictHostKeyChecking=no",
   "-o", "CheckHostIP=no",
   "-o", "LogLevel=ERROR"]

/-- The parameters of `exec_ssh` after the adapters' conversions
(`data.get(...)`, `bool(...)`, `int(...)`); `none` stands for Python
`None` in an optional argument. -/
structure SshParams where
  host : String
  command : String
  user : Option String
  port : Option Int
  ssh_dir : Option String
  strict_host_key_checking : Option String
  proxy_jump : Option String
  allocate_tty : Bool
  extra_opts : Option (List String)
  timeout : Int

/-- Python truthiness of an optional string argument (`if user:`). -/
def optStrTruthy : Option String → Bool
  | some s => s != ""
  | none => false

/-- Python truthiness of an optional integer argument (`if port:`). -/
def optIntTruthy : Option Int → Bool
  | some n => n != 0
  | none => false

/-- Python truthiness of an optional list argument (`if extra_opts:`). -/
def optListTruthy : Option (List String) → Bool
  | some xs => !xs.isEmpty
  | none => false

/-- `os.path.join(d, f)` for a relative second component. -/
def pyJoin (d f : String) : String :=
  if d == "" then f
  else if d.pyEndsWith "/" then d ++ f
  else d ++ "/" ++ f

/-- The `opts` list built by `exec_ssh` (exec_ssh.py lines 18-37):
ephemeral defaults, then `-p`, then the optional `-F` config override,
then the strict-host-key-checking override, `-J`, `-t`, and finally the
`extra_opts` tokens verbatim. -/
def sshOpts (env : FsEnv) (p : SshParams) : List String :=
  EPHEMERAL_DEFAULTS
  ++ (if optIntTruthy p.port then ["-p", toString (p.port.getD 0)] else [])
  ++ (if optStrTruthy p.ssh_dir then
        let d := env.expanduser (p.ssh_dir.getD "")
        if env.isdir d then
          let cfg := pyJoin d "config"
          if env.fileExists cfg then ["-F", cfg] else []
        else []
      else [])
  ++ (if optStrTruthy p.strict_host_key_checking then
        ["-o", "StrictHostKeyChecking=" ++ p.strict_host_key_checking.getD ""]
      else [])
  ++ (if optStrTruthy p.proxy_jump then ["-J", p.proxy_jump.getD ""] else [])
  ++ (if p.allocate_tty then ["-t"] else [])
  ++ (if optListTruthy p.extra_opts then p.extra_opts.getD [] else [])

/-- The connection target: `f"{user}@{host}" if user else host`
(exec_ssh.py line 39). -/
def sshTarget (p : SshParams) : String :=
  if optStrTruthy p.user then p.user.getD "" ++ "@" ++ p.host else p.host

/-- The full argument vector handed to `subprocess.Popen`
(exec_ssh.py line 43): `["ssh"] + opts + [target, "--", command]`. -/
def sshArgv (env : FsEnv) (p : SshParams) : List String :=
  ["ssh"] ++ sshOpts env p ++ [sshTarget p, "--", p.command]

/-- A Python exception escaping a modelled call. -/
inductive PyExc where
  | valueError (msg : String)
  | keyError (msg : String)
  | timeoutExpired
  | calledProcessError (returncode : Int)
  | osError (msg : String)
deriving DecidableEq

/-- A rough rendering of Python `str(e)` for an exception, used where the
adapters interpolate the exception into an error message. -/
def PyExc.pyStr : PyExc → String
  | .valueError m => m
  | .keyError m => m
  | .timeoutExpired => "TimeoutExpired"
  | .calledProcessError rc => "CalledProcessError " ++ toString rc
  | .osError m => m

/-- The result dictionary returned by `exec_ssh`
(`{exit_code, stdout, stderr, duration_seconds}`); the duration is in
integer milliseconds, so Python's `round(-, 3)` of seconds is exact. -/
structure SshResult where
  exit_code : Int
  stdout : String
  stderr : String
  duration_ms : Nat
deriving DecidableEq

/-- The oracle for what the operating system does with the spawned child
process: `subprocess.Popen` itself raises, or `proc.communicate` raises
`TimeoutExpired` after `elapsedMs`, or the child completes. -/
inductive ProcBehavior where
  | spawnFail (exc : String)
  | timeout (elapsedMs : Nat)
  | completed (returncode : Int) (stdout stderr : String) (elapsedMs : Nat)

/-- Embedding of `exec_ssh` (exec_ssh.py lines 41-60). The argument
vector `sshArgv env p` is what `Popen` receives; `Popen` stands outside
the `try` block, so a spawn failure escapes as an exception. A
`TimeoutExpired` from `communicate` is caught and converted to the
sentinel result `{124, "", "timeout", elapsed}`; a completed child yields
its return code, captured output, and elapsed duration. -/
def exec_ssh (env : FsEnv) (beh : ProcBehavior) (p : SshParams) :
    Except PyExc SshResult :=
  let _argv := sshArgv env p
  match beh with
  | .spawnFail e => .error (.osError e)
  | .timeout ms => .ok ⟨124, "", "timeout", ms⟩
  | .completed rc out err ms => .ok ⟨rc, out, err, ms⟩

/-! ### HTTP adapter: run_cmd (api/api.py lines 220-299)

The model starts after authentication and JSON parsing have succeeded
(those stages depend only on headers and raw body framing, not on the
claims' subject matter), i.e. at line 248 with the parsed `data` dict in
hand. The second component of the result records whether `exec_ssh` was
invoked, i.e. whether the code reached the `subprocess.Popen` call site. -/

/-- Conversion of an optional string-valued field as the adapter passes it
to `exec_ssh` (`data.get("user")` is `None` or a validated `str`). -/
def Value.asOptStr : Value → Option String
  | .str s => some s
  | _ => none

/-- Conversion of an optional int-valued field; a Python `bool` is an
`int` (`True` is 1, `False` is 0). -/
def Value.asOptInt : Value → Option Int
  | .int n => some n
  | .bool b => some (if b then 1 else 0)
  | _ => none

/-- Conversion of the `extra_opts` field: a validated list of strings
(`str(x)` on a `str` is the identity). -/
def Value.asOptStrList : Value → Option (List String)
  | .arr xs => some (xs.map Value.asStr)
  | _ => none

/-- The keyword arguments `run_cmd` passes to `exec_ssh`
(api/api.py lines 268-279), with the already-computed `ssh_dir`. -/
def toParams (data : Dict) (sshDir : Option String) : SshParams :=
  ⟨(pyGet data "host").asStr,
   (pyGet data "command").asStr,
   (pyGet data "user").asOptStr,
   (pyGet data "port").asOptInt,
   sshDir,
   (pyGet data "strict_host_key_checking").asOptStr,
   (pyGet data "proxy_jump").asOptStr,
   (pyGet data "allocate_tty").truthy,
   (pyGet data "extra_opts").asOptStrList,
   (pyGetD data "timeout" (.int 60)).asInt⟩

/-- An HTTP response from `run_cmd`: either `jsonify(res), 200` with the
`SshResult` body, or `error_response(message, status)`. -/
inductive HttpResp where
  | ok (r : SshResult)
  | err (status : Nat) (message : String)
deriving DecidableEq

/-- The HTTP status code of a response (`jsonify(res), 200` carries 200). -/
def HttpResp.status : HttpResp → Nat
  | .ok _ => 200
  | .err s _ => s

/-- Embedding of the `/run` handler `run_cmd` from parameter validation
onward (api/api.py lines 248-299), over the config value `SSH_DIR`
(`cfgSshDir`) and the process oracle. The boolean is true exactly on the
paths that invoke `exec_ssh`. The `except` clauses map an escaping
`TimeoutExpired` to 504, `CalledProcessError` to 500, and any other
exception to 500. -/
def runCmd (env : FsEnv) (cfgSshDir : String) (beh : ProcBehavior)
    (data : Dict) : HttpResp × Bool :=
  match validate_ssh_parameters data with
  | some e => (.err 400 e, false)
  | none =>
    let sdv := pyGetD data "ssh_dir" (.str cfgSshDir)
    let dirCheck : Option String :=
      if sdv.truthy then validate_ssh_directory env sdv.asStr else none
    match dirCheck with
    | some e => (.err 400 e, false)
    | none =>
      let sshDir : Option String :=
        if sdv.truthy then some (env.expanduser sdv.asStr) else sdv.asOptStr
      match exec_ssh env beh (toParams data sshDir) with
      | .ok r => (.ok r, true)
      | .error .timeoutExpired => (.err 504 "SSH command timed out", true)
      | .error (.calledProcessError rc) =>
          (.err 500 ("SSH execution failed: " ++ PyExc.pyStr (.calledProcessError rc)), true)
      | .error e => (.err 500 ("Internal server error: " ++ e.pyStr), true)

/-! ### MCP adapter (mcp/server.py) -/

/-- The value returned by `mcp_tools_call` on success: the single text
content block and the `isError` flag (mcp/server.py lines 307-319). -/
structure McpResult where
  text : String
  isError : Bool
deriving DecidableEq

/-- Rendering of the text block `mcp_tools_call` builds from an
`SshResult` (duration rendered from the millisecond clock). -/
def mcpText (host : String) (r : SshResult) : String :=
  "SSH command completed on " ++ host ++ ":\n"
    ++ "Exit code: " ++ toString r.exit_code ++ "\n"
    ++ "Duration: " ++ toString r.duration_ms ++ "ms\n"
    ++ "Stdout: " ++ r.stdout ++ "\n"
    ++ "Stderr: " ++ r.stderr

/-- A rough rendering of Python `str(x)` for a value interpolated into an
error message (`f"Unknown tool: {name}"`). -/
def Value.pyRepr : Value → String
  | .null => "None"
  | .bool b => if b then "True" else "False"
  | .int n => toString n
  | .str s => s
  | .arr _ => "[...]"
  | .obj _ => "{...}"

/-- Embedding of `mcp_tools_call` (mcp/server.py lines 260-319), over the
environment default `os.environ.get("SSH_DIR", "")` (`envSshDir`).
Returns the raised exception in the `error` case; the boolean records
whether `exec_ssh` was invoked. Accessing `.get` on a non-dict `params`
raises `AttributeError`, modelled as a generic exception. -/
def mcp_tools_call (env : FsEnv) (envSshDir : String) (beh : ProcBehavior)
    (params : Value) : Except PyExc McpResult × Bool :=
  match params with
  | .obj pfs =>
    let name := (pfs.lookup "name").getD .null
    let argsV := (pfs.lookup "arguments").getD .null
    if !name.eqStr "ssh" then
      (.error (.valueError ("Unknown tool: " ++ name.pyRepr)), false)
    else
      match (if argsV.truthy then argsV else .obj []) with
      | .obj args =>
        match validate_ssh_parameters args with
        | some e => (.error (.valueError ("Invalid parameters: " ++ e)), false)
        | none =>
          let sdv := pyGet args "ssh_dir"
          let sshDirStr := if sdv.truthy then sdv.asStr else envSshDir
          if sshDirStr != "" then
            match validate_ssh_directory env sshDirStr with
            | some e => (.error (.valueError ("SSH directory error: " ++ e)), false)
            | none =>
              match exec_ssh env beh (toParams args (some (env.expanduser sshDirStr))) with
              | .ok r => (.ok ⟨mcpText (pyGet args "host").asStr r, r.exit_code != 0⟩, true)
              | .error e => (.error e, true)
          else
            match exec_ssh env beh (toParams args (some sshDirStr)) with
            | .ok r => (.ok ⟨mcpText (pyGet args "host").asStr r, r.exit_code != 0⟩, true)
            | .error e => (.error e, true)
      | _ =>
        -- validate_ssh_parameters(arguments) on a truthy non-dict raises
        -- AttributeError in Python (caught by the generic except clause)
        (.error (.osError "AttributeError"), false)
  | _ => (.error (.osError "AttributeError"), false)

/-! ### JSON-RPC dispatch: handle and the main loop (mcp/server.py
lines 323-397) -/

/-- The payload of a JSON-RPC response carrying an `id` field: the fixed
`initialize` result object, the fixed `tools/list` result object, a
`tools/call` result, or an error object `{code, message}`. -/
inductive RespPayload where
  | initialized
  | toolsList
  | toolResult (r : McpResult)
  | rpcError (code : Int) (message : String)
deriving DecidableEq

/-- A response emitted by the server: `withId` is a `jr`/`jerr` response
(always containing an `"id"` field with the given value); `noId` is the
parse-error response built inline in `main`, which contains no `"id"`
field at all. -/
inductive Resp where
  | withId (id : Value) (payload : RespPayload)
  | noId (code : Int) (message : String)

/-- Whether the response object contains an `"id"` field. -/
def Resp.hasIdField : Resp → Bool
  | .withId _ _ => true
  | .noId _ _ => false

/-- The value of the response's `"id"` field, when present. -/
def Resp.idVal : Resp → Option Value
  | .withId i _ => some i
  | .noId _ _ => none

/-- The error-to-response mapping of `handle`'s `except` clauses
(mcp/server.py lines 358-381): `ValueError` messages are classified by
substring, `KeyError` maps to invalid-params, `TimeoutExpired` and
`CalledProcessError` to the custom SSH codes, anything else to the
internal-error code. -/
def handleExc : PyExc → Int × String
  | .valueError m =>
    if pyContains m "Invalid parameters:" then (-32003, m)
    else if pyContains m "SSH directory error:" then (-32004, m)
    else (-32602, m)
  | .keyError k => (-32602, "Missing required parameter: " ++ k)
  | .timeoutExpired => (-32002, "SSH command timed out")
  | .calledProcessError rc =>
      (-32001, "SSH command failed: " ++ PyExc.pyStr (.calledProcessError rc))
  | .osError m => (-32603, "Internal server error: " ++ m)

/-- Embedding of `handle` (mcp/server.py lines 323-381), paired with the
exec_ssh-invocation flag threaded up from `mcp_tools_call`. A missing or
`null` request id is replaced by the default id 0 on every path,
including the invalid-envelope path. -/
def handle (env : FsEnv) (envSshDir : String) (beh : ProcBehavior)
    (req : Value) : Resp × Bool :=
  match req with
  | .obj fs =>
    if !((fs.lookup "jsonrpc").getD .null).eqStr "2.0" then
      let rid := (fs.lookup "id").getD .null
      (.withId (if rid.isNull then .int 0 else rid) (.rpcError (-32600) "Invalid Request"), false)
    else
      let m := (fs.lookup "method").getD .null
      let id0 := (fs.lookup "id").getD .null
      let rid := if id0.isNull then Value.int 0 else id0
      let p0 := (fs.lookup "params").getD .null
      let params := if p0.truthy then p0 else .obj []
      if m.eqStr "initialize" then (.withId rid .initialized, false)
      else if m.eqStr "tools/list" then (.withId rid .toolsList, false)
      else if m.eqStr "tools/call" then
        match mcp_tools_call env envSshDir beh params with
        | (.ok r, sp) => (.withId rid (.toolResult r), sp)
        | (.error e, sp) =>
            (.withId rid (.rpcError (handleExc e).1 (handleExc e).2), sp)
      else (.withId rid (.rpcError (-32601) ("Method not found: " ++ m.pyRepr)), false)
  | _ =>
    -- not a dict: req_id falls back to 0 (mcp/server.py lines 333-338)
    (.withId (.int 0) (.rpcError (-32600) "Invalid Request"), false)

/-- One iteration of the `main` stdin loop (mcp/server.py lines 385-397)
for a non-empty line: the argument is the outcome of `json.loads`
(`none` when it raises `JSONDecodeError`), in which case the inline
parse-error response — with no id — is emitted. -/
def processLine (env : FsEnv) (envSshDir : String) (beh : ProcBehavior)
    (parsed : Option Value) : Resp × Bool :=
  match parsed with
  | none => (.noId (-32700) "Parse error: Invalid JSON", false)
  | some req => handle env envSshDir beh req

/-! ### Spec-side validation order (refinement counterpart for the
fail-fast ordering contract)

These definitions follow the specification's words, not the source: the
spec lists the constraint order "required fields present → type/length of
host → type/length of command → user → port → timeout → ssh_dir length →
strict_host_key_checking enum membership → proxy_jump → allocate_tty type
→ extra_opts array-of-bounded-strings", each check producing the error
message of that constraint, and the validator is required to report the
first failure of this list (and `valid`/`none` when all pass). -/

/-- Spec check 1: required fields present. -/
def specCheckRequired (d : Dict) : Option String :=
  if !(pyGet d "host").truthy then some "Missing required parameter: host"
  else if !(pyGet d "command").truthy then some "Missing required parameter: command"
  else none

/-- Spec check 2: type and length of `host`. -/
def specCheckHost (d : Dict) : Option String :=
  if !(pyGet d "host").isStr || (pyGet d "host").asStr.pyStrip.pyLen == 0 then
    some "Host must be a non-empty string"
  else if (pyGet d "host").asStr.pyLen > MAX_HOST_LENGTH then
    some ("Host length exceeds maximum of " ++ toString MAX_HOST_LENGTH ++ " characters")
  else none

/-- Spec check 3: type and length of `command`. -/
def specCheckCommand (d : Dict) : Option String :=
  if !(pyGet d "command").isStr || (pyGet d "command").asStr.pyStrip.pyLen == 0 then
    some "Command must be a non-empty string"
  else if (pyGet d "command").asStr.pyLen > MAX_COMMAND_LENGTH then
    some ("Command length exceeds maximum of " ++ toString MAX_COMMAND_LENGTH ++ " characters")
  else none

/-- Spec check 4: `user`. -/
def specCheckUser (d : Dict) : Option String :=
  if !(pyGet d "user").isNull &&
      (!(pyGet d "user").isStr || (pyGet d "user").asStr.pyLen > MAX_USER_LENGTH) then
    some ("User must be a string with maximum " ++ toString MAX_USER_LENGTH ++ " characters")
  else none

/-- Spec check 5: `port`. -/
def specCheckPort (d : Dict) : Option String :=
  if !(pyGet d "port").isNull &&
      (!(pyGet d "port").isIntLike || (pyGet d "port").asInt < 1 ||
        (pyGet d "port").asInt > 65535) then
    some "Port must be an integer between 1 and 65535"
  else none

/-- Spec check 6: `timeout` (defaulting to 60 when absent). -/
def specCheckTimeout (d : Dict) : Option String :=
  if !(pyGetD d "timeout" (.int 60)).isIntLike ||
      (pyGetD d "timeout" (.int 60)).asInt < MIN_TIMEOUT ||
      (pyGetD d "timeout" (.int 60)).asInt > MAX_TIMEOUT then
    some ("Timeout must be an integer between " ++ toString MIN_TIMEOUT ++ " and "
      ++ toString MAX_TIMEOUT ++ " seconds")
  else none

/-- Spec check 7: `ssh_dir` type and length. -/
def specCheckSshDir (d : Dict) : Option String :=
  if !(pyGet d "ssh_dir").isNull &&
      (!(pyGet d "ssh_dir").isStr || (pyGet d "ssh_dir").asStr.pyLen > MAX_SSH_DIR_LENGTH) then
    some ("SSH directory path must be a string with maximum " ++ toString MAX_SSH_DIR_LENGTH
      ++ " characters")
  else none

/-- Spec check 8: `strict_host_key_checking` enum membership. -/
def specCheckShkc (d : Dict) : Option String :=
  if !(pyGet d "strict_host_key_checking").isNull &&
      !((pyGet d "strict_host_key_checking").eqStr "yes" ||
        (pyGet d "strict_host_key_checking").eqStr "no" ||
        (pyGet d "strict_host_key_checking").eqStr "accept-new") then
    some "strict_host_key_checking must be one of: yes, no, accept-new"
  else none

/-- Spec check 9: `proxy_jump`. -/
def specCheckProxyJump (d : Dict) : Option String :=
  if !(pyGet d "proxy_jump").isNull &&
      (!(pyGet d "proxy_jump").isStr || (pyGet d "proxy_jump").asStr.pyLen > MAX_HOST_LENGTH) then
    some ("Proxy jump must be a string with maximum " ++ toString MAX_HOST_LENGTH ++ " characters")
  else none

/-- Spec check 10: `allocate_tty` type. -/
def specCheckAllocateTty (d : Dict) : Option String :=
  if !(pyGet d "allocate_tty").isNull && !(pyGet d "allocate_tty").isBool then
    some "allocate_tty must be a boolean"
  else none

/-- Spec check 11: `extra_opts` is an array of bounded strings. -/
def specCheckExtraOpts (d : Dict) : Option String :=
  if !(pyGet d "extra_opts").isNull && !(pyGet d "extra_opts").isArr then
    some "extra_opts must be an array"
  else if !(pyGet d "extra_opts").isNull &&
      (pyGet d "extra_opts").asArr.any (fun o => !o.isStr || o.asStr.pyLen > 256) then
    some "Each extra_opts item must be a string with maximum 256 characters"
  else none

/-- The specification's fixed constraint order. -/
def specChecks : List (Dict → Option String) :=
  [specCheckRequired, specCheckHost, specCheckCommand, specCheckUser,
   specCheckPort, specCheckTimeout, specCheckSshDir, specCheckShkc,
   specCheckProxyJump, specCheckAllocateTty, specCheckExtraOpts]

/-- The error of the first failing constraint in the spec's order
(`none` when every constraint passes). -/
def specFirstViolation (d : Dict) : Option String :=
  specChecks.findSome? (fun c => c d)

/-! ### Concrete fixtures used by witnesses and counterexamples -/

/-- A concrete environment: home directory `/root`; every path is an
existing readable directory and every file exists. -/
def envHome : FsEnv :=
  ⟨fun s => if s == "~" then "/root" else s, fun _ => true, fun _ => true, fun _ => true⟩

/-- A minimal valid request body: `{"host": "h", "command": "c"}`. -/
def dataHC : Dict := [("host", .str "h"), ("command", .str "c")]

/-- Minimal `exec_ssh` parameters (host `h`, command `c`, defaults). -/
def paramsHC : SshParams :=
  ⟨"h", "c", none, none, none, none, none, false, none, 60⟩

/-- Parameters with an explicitly supplied empty `user`. -/
def paramsEmptyUser : SshParams :=
  ⟨"h", "c", some "", none, none, none, none, false, none, 60⟩

/-- Parameters with `user: "alice"` and `host: "example.com"`. -/
def paramsAlice : SshParams :=
  ⟨"example.com", "ls", some "alice", none, none, none, none, false, none, 60⟩

/-! ### Claim theorems -/

/-- Claim C3: for every invocation of `exec_ssh` in which the child
process does not finish within the timeout, the result has exactly exit
code 124, empty stdout, stderr `"timeout"`, and a duration equal to the
elapsed wall-clock time (exactly, in the millisecond-resolution clock
model, where Python's `round(-, 3)` is the identity). -/
theorem exec_ssh_timeout_sentinel (env : FsEnv) (p : SshParams) (ms : Nat) :
    exec_ssh env (.timeout ms) p = .ok ⟨124, "", "timeout", ms⟩ := rfl

/-- Claim C2 counterexample: when `subprocess.Popen` itself fails (for
example `FileNotFoundError` with no `ssh` binary installed), the
exception escapes `exec_ssh` instead of becoming an `SshResult`, because
the `Popen` call stands outside the `try` block. -/
theorem exec_ssh_spawn_failure_escapes :
    exec_ssh envHome (.spawnFail "FileNotFoundError") paramsHC
      = .error (.osError "FileNotFoundError") := rfl

/-- Claim C2 (amended): for every parameter set, `exec_ssh` returns an
`SshResult` for every outcome in which the child process was successfully
spawned — a timeout becomes the sentinel result and a completion becomes
the child's result — while a spawn failure is handed to the caller as an
escaping exception. -/
theorem exec_ssh_total_after_spawn (env : FsEnv) (p : SshParams)
    (ms d : Nat) (rc : Int) (out err m : String) :
    exec_ssh env (.timeout ms) p = .ok ⟨124, "", "timeout", ms⟩
    ∧ exec_ssh env (.completed rc out err d) p = .ok ⟨rc, out, err, d⟩
    ∧ exec_ssh env (.spawnFail m) p = .error (.osError m) :=
  ⟨rfl, rfl, rfl⟩

/-- Claim C10: the allow-list comparison in `validate_ssh_directory` is a
plain string-prefix test with no path-separator boundary. With home
directory `/root`, the absolute path `/rootkit` — which is not `/root`,
not under `/root/`, and not under `/home/` or `/Users/` — nevertheless
passes the allow-list check (its text merely begins with `/root`) and is
not rejected with "SSH directory path not allowed". -/
theorem allowlist_prefix_no_boundary :
    validate_ssh_directory envHome "/rootkit" = none
    ∧ "/rootkit".pyStartsWith "/root" = true
    ∧ "/rootkit".pyStartsWith "/root/" = false
    ∧ "/rootkit" ≠ "/root"
    ∧ "/rootkit".pyStartsWith "/home/" = false
    ∧ "/rootkit".pyStartsWith "/Users/" = false := by
  refine ⟨rfl, rfl, rfl, ?_, rfl, rfl⟩
  decide

/-- Claim C7: for every `ssh_dir` string containing a parent-directory
segment `..` (or starting from the filesystem root) whose expanded path
falls under none of the allowed home-directory prefixes,
`validate_ssh_directory` returns "SSH directory path not allowed". The
environment's `isdir`/`readable` oracles are arbitrary, so the rejection
holds regardless of whether the path exists: the allow-list check is
decided before the existence and readability checks. -/
theorem ssh_dir_traversal_rejected (env : FsEnv) (d : String)
    (h1 : (pyContains d ".." || d.pyStartsWith "/") = true)
    (h2 : (["/home/", "/Users/", env.expanduser "~"].any
        (fun p => (env.expanduser d).pyStartsWith p)) = false) :
    validate_ssh_directory env d = some "SSH directory path not allowed" := by
  have hd : (d == "") = false := by
    by_cases h : d = ""
    · subst h
      exact absurd h1 (by decide)
    · simp [h]
  simp only [validate_ssh_directory, hd, h1, h2]
  simp

/-- Claim C7 witness: the path `/etc/../root` contains `..`, expands (in
`envHome`) to itself, falls under no allowed prefix (in particular it
does not start with the home directory `/root`), and is rejected. -/
theorem ssh_dir_traversal_rejected_witness :
    (pyContains "/etc/../root" ".." || "/etc/../root".pyStartsWith "/") = true
    ∧ (["/home/", "/Users/", envHome.expanduser "~"].any
        (fun p => (envHome.expanduser "/etc/../root").pyStartsWith p)) = false
    ∧ validate_ssh_directory envHome "/etc/../root"
        = some "SSH directory path not allowed" :=
  ⟨by decide, by decide,
   ssh_dir_traversal_rejected envHome "/etc/../root" (by decide) (by decide)⟩

/-- Claim C1 counterexample: an authenticated, fully validated request
whose child process exceeds the timeout is answered with HTTP 200 and the
sentinel `SshResult` body — not 504. `exec_ssh` catches the
`TimeoutExpired` and returns the 124-result, so the handler's
`except subprocess.TimeoutExpired` branch (the 504 path) is never reached
from a child-process timeout. -/
theorem http_timeout_answers_200 :
    runCmd envHome "/root/.ssh" (.timeout 60000) dataHC
      = (.ok ⟨124, "", "timeout", 60000⟩, true)
    ∧ (runCmd envHome "/root/.ssh" (.timeout 60000) dataHC).1.status = 200
    ∧ (200 : Nat) ≠ 504 := by
  refine ⟨rfl, rfl, ?_⟩
  decide

/-- Claim C1 (amended): for every request that passes parameter and
ssh-directory validation, the HTTP adapter responds 200 — with the
sentinel `{124, "", "timeout"}` `SshResult` when the child exceeds the
timeout, and with the child's `SshResult` when the invocation
completes. -/
theorem http_run_responses (env : FsEnv) (cfg : String) (data : Dict)
    (ms d : Nat) (rc : Int) (out err : String)
    (hv : validate_ssh_parameters data = none)
    (hd : (if (pyGetD data "ssh_dir" (.str cfg)).truthy then
        validate_ssh_directory env (pyGetD data "ssh_dir" (.str cfg)).asStr
      else none) = none) :
    runCmd env cfg (.timeout ms) data = (.ok ⟨124, "", "timeout", ms⟩, true)
    ∧ runCmd env cfg (.completed rc out err d) data = (.ok ⟨rc, out, err, d⟩, true) := by
  constructor <;> simp only [runCmd, hv, hd, exec_ssh]

/-- Claim C1 witness: the minimal valid request with the default SSH
directory, for a child completing with exit code 0 after 42ms. -/
theorem http_run_responses_witness :
    validate_ssh_parameters dataHC = none
    ∧ runCmd envHome "/root/.ssh" (.completed 0 "out" "" 42) dataHC
        = (.ok ⟨0, "out", "", 42⟩, true) :=
  ⟨rfl,
   (http_run_responses envHome "/root/.ssh" dataHC 1 42 0 "out" "" rfl rfl).2⟩

/-- Claim C6: on both front-ends, a request that fails parameter
validation or ssh-directory validation is answered with the error before
`exec_ssh` is ever invoked (the boolean component records reaching the
`subprocess.Popen` call site), so no subprocess is spawned on those
paths: an invocation either fully validates and executes, or fails with
no process started. -/
theorem no_spawn_without_validation (env : FsEnv) (cfg sdflt : String)
    (beh : ProcBehavior) (data args : Dict) (e sd : String) :
    (validate_ssh_parameters data = some e →
      runCmd env cfg beh data = (.err 400 e, false))
    ∧ (validate_ssh_parameters data = none →
        (pyGetD data "ssh_dir" (.str cfg)).truthy = true →
        validate_ssh_directory env (pyGetD data "ssh_dir" (.str cfg)).asStr = some e →
        runCmd env cfg beh data = (.err 400 e, false))
    ∧ (validate_ssh_parameters args = some e →
        mcp_tools_call env sdflt beh
            (.obj [("name", .str "ssh"), ("arguments", .obj args)])
          = (.error (.valueError ("Invalid parameters: " ++ e)), false))
    ∧ (validate_ssh_parameters args = none →
        pyGet args "ssh_dir" = .str sd → sd ≠ "" →
        validate_ssh_directory env sd = some e →
        mcp_tools_call env sdflt beh
            (.obj [("name", .str "ssh"), ("arguments", .obj args)])
          = (.error (.valueError ("SSH directory error: " ++ e)), false)) := by
  refine ⟨?_, ?_, ?_, ?_⟩
  · intro hv
    simp only [runCmd, hv]
  · intro hv ht hd
    simp only [runCmd, hv, ht, if_true, hd]
  · intro hv
    by_cases ha : args = []
    · subst ha
      simp [mcp_tools_call, Value.eqStr, List.lookup, Value.truthy, hv]
    · simp [mcp_tools_call, Value.eqStr, List.lookup, Value.truthy,
        List.isEmpty_eq_true, ha, hv]
  · intro hv hs hne hd
    by_cases ha : args = []
    · subst ha
      simp [pyGet, pyGetD] at hs
    · simp [mcp_tools_call, Value.eqStr, List.lookup, Value.truthy,
        Value.asStr, List.isEmpty_eq_true, ha, hv, hs, hne, hd]

/-- Claim C6 witness: a request missing `host` fails validation with the
specific message and `exec_ssh` is not invoked (no subprocess spawn is
reached). -/
theorem no_spawn_without_validation_witness :
    validate_ssh_parameters [] = some "Missing required parameter: host"
    ∧ runCmd envHome "/root/.ssh" (.completed 0 "" "" 1) []
        = (.err 400 "Missing required parameter: host", false) :=
  ⟨rfl,
   (no_spawn_without_validation envHome "/root/.ssh" "" (.completed 0 "" "" 1)
      [] [] "Missing required parameter: host" "").1 rfl⟩

/-- Claim C4 counterexample: a validated parameter set may supply `user`
as the empty string (the validator accepts any string of length at most
32), and then the connection target is `host` alone rather than
`"" ++ "@" ++ host`, because `f"{user}@{host}" if user else host` tests
Python truthiness, under which the empty string is false. -/
theorem empty_user_target_not_at_form :
    sshTarget paramsEmptyUser = "h"
    ∧ paramsEmptyUser.user = some ""
    ∧ sshTarget paramsEmptyUser ≠ "" ++ "@" ++ paramsEmptyUser.host := by
  refine ⟨rfl, rfl, ?_⟩
  decide

/-- Claim C4 (amended): for every parameter set, the argument vector ends
with the connection target, a literal `--`, and the remote command string
as the single final argument; the `extra_opts` entries appear verbatim as
the final segment of the option list, hence before the target; and the
target is exactly `user@host` when a non-empty user was supplied and
`host` when the user is absent or empty. -/
theorem argv_structure (env : FsEnv) (p : SshParams) :
    (sshArgv env p = ["ssh"] ++ sshOpts env p ++ [sshTarget p, "--", p.command])
    ∧ (∃ pre, sshOpts env p
        = pre ++ (if optListTruthy p.extra_opts then p.extra_opts.getD [] else []))
    ∧ (∀ u, p.user = some u → u ≠ "" → sshTarget p = u ++ "@" ++ p.host)
    ∧ (p.user = none ∨ p.user = some "" → sshTarget p = p.host) := by
  refine ⟨rfl, ⟨_, rfl⟩, ?_, ?_⟩
  · intro u hu hne
    simp [sshTarget, optStrTruthy, hu, hne]
  · rintro (hu | hu) <;> simp [sshTarget, optStrTruthy, hu]

/-- Claim C4 witness: with `user: "alice"` and `host: "example.com"` the
connection target is exactly `alice@example.com`. -/
theorem argv_structure_witness :
    paramsAlice.user = some "alice"
    ∧ sshTarget paramsAlice = "alice@example.com" :=
  ⟨rfl,
   ((argv_structure envHome paramsAlice).2.2.1 "alice" rfl (by decide)).trans
     (by decide)⟩

/-- For a list decomposed as `A ++ (B ++ R)`, the element at offset `i`
inside `B` is found at index `A.length + i`. -/
theorem getElem?_append_middle (A B R : List String) (i : Nat) (h : i < B.length) :
    (A ++ (B ++ R))[A.length + i]? = B[i]? := by
  rw [List.getElem?_append_right (Nat.le_add_right _ _)]
  rw [Nat.add_sub_cancel_left]
  exact List.getElem?_append_left h

/-- Claim C8: for every parameter set supplying a (validated)
`strict_host_key_checking` value, the option list contains the default
pair `-o StrictHostKeyChecking=no` at indices 4 and 5 (inside the
ephemeral defaults) and, at a strictly later position, the pair
`-o StrictHostKeyChecking=<value>`, so the caller's value wins under
SSH's last-value-wins option resolution. -/
theorem shkc_override_after_default (env : FsEnv) (p : SshParams) (v : String)
    (hp : p.strict_host_key_checking = some v)
    (hv : v = "yes" ∨ v = "no" ∨ v = "accept-new") :
    (sshOpts env p)[4]? = some "-o"
    ∧ (sshOpts env p)[5]? = some "StrictHostKeyChecking=no"
    ∧ ∃ j, 5 < j ∧ (sshOpts env p)[j]? = some "-o"
        ∧ (sshOpts env p)[j + 1]? = some ("StrictHostKeyChecking=" ++ v) := by
  have hvne : v ≠ "" := by rcases hv with rfl | rfl | rfl <;> decide
  have htr : optStrTruthy p.strict_host_key_checking = true := by
    rw [hp]; simp [optStrTruthy, hvne]
  have hgd : p.strict_host_key_checking.getD "" = v := by rw [hp]; rfl
  have hopts : sshOpts env p
      = EPHEMERAL_DEFAULTS
        ++ ((if optIntTruthy p.port then ["-p", toString (p.port.getD 0)] else [])
          ++ ((if optStrTruthy p.ssh_dir then
                let d := env.expanduser (p.ssh_dir.getD "")
                if env.isdir d then
                  let cfg := pyJoin d "config"
                  if env.fileExists cfg then ["-F", cfg] else []
                else []
              else [])
            ++ (["-o", "StrictHostKeyChecking=" ++ v]
              ++ ((if optStrTruthy p.proxy_jump then ["-J", p.proxy_jump.getD ""] else [])
                ++ ((if p.allocate_tty then ["-t"] else [])
                  ++ (if optListTruthy p.extra_opts then p.extra_opts.getD [] else [])))))) := by
    simp only [sshOpts, htr, if_true, hgd, List.append_assoc]
  refine ⟨?_, ?_, ?_⟩
  · rw [hopts, List.getElem?_append_left (by simp [EPHEMERAL_DEFAULTS])]
    rfl
  · rw [hopts, List.getElem?_append_left (by simp [EPHEMERAL_DEFAULTS])]
    rfl
  · refine ⟨10 + ((if optIntTruthy p.port then ["-p", toString (p.port.getD 0)] else [])
        ++ (if optStrTruthy p.ssh_dir then
              let d := env.expanduser (p.ssh_dir.getD "")
              if env.isdir d then
                let cfg := pyJoin d "config"
                if env.fileExists cfg then ["-F", cfg] else []
              else []
            else [])).length, by omega, ?_, ?_⟩
    · have := getElem?_append_middle
        (EPHEMERAL_DEFAULTS
          ++ ((if optIntTruthy p.port then ["-p", toString (p.port.getD 0)] else [])
            ++ (if optStrTruthy p.ssh_dir then
                  let d := env.expanduser (p.ssh_dir.getD "")
                  if env.isdir d then
                    let cfg := pyJoin d "config"
                    if env.fileExists cfg then ["-F", cfg] else []
                  else []
                else [])))
        (["-o", "StrictHostKeyChecking=" ++ v])
        ((if optStrTruthy p.proxy_jump then ["-J", p.proxy_jump.getD ""] else [])
          ++ ((if p.allocate_tty then ["-t"] else [])
            ++ (if optListTruthy p.extra_opts then p.extra_opts.getD [] else [])))
        0 (by simp)
      rw [hopts]
      simp only [List.append_assoc, List.length_append,
        EPHEMERAL_DEFAULTS, List.length_cons] at this ⊢
      convert this using 2
    · have := getElem?_append_middle
        (EPHEMERAL_DEFAULTS
          ++ ((if optIntTruthy p.port then ["-p", toString (p.port.getD 0)] else [])
            ++ (if optStrTruthy p.ssh_dir then
                  let d := env.expanduser (p.ssh_dir.getD "")
                  if env.isdir d then
                    let cfg := pyJoin d "config"
                    if env.fileExists cfg then ["-F", cfg] else []
                  else []
                else [])))
        (["-o", "StrictHostKeyChecking=" ++ v])
        ((if optStrTruthy p.proxy_jump then ["-J", p.proxy_jump.getD ""] else [])
          ++ ((if p.allocate_tty then ["-t"] else [])
            ++ (if optListTruthy p.extra_opts then p.extra_opts.getD [] else [])))
        1 (by simp)
      rw [hopts]
      simp only [List.append_assoc, List.length_append,
        EPHEMERAL_DEFAULTS, List.length_cons] at this ⊢
      convert this using 2

/-- Claim C8 witness: with `strict_host_key_checking: "yes"` and no other
options, the default pair sits at indices 4-5 and the override pair at
indices 10-11. -/
theorem shkc_override_after_default_witness :
    (sshOpts envHome ⟨"h", "c", none, none, none, some "yes", none, false, none, 60⟩)[4]?
        = some "-o"
    ∧ (sshOpts envHome ⟨"h", "c", none, none, none, some "yes", none, false, none, 60⟩)[5]?
        = some "StrictHostKeyChecking=no"
    ∧ ∃ j, 5 < j
        ∧ (sshOpts envHome ⟨"h", "c", none, none, none, some "yes", none, false, none, 60⟩)[j]?
            = some "-o"
        ∧ (sshOpts envHome ⟨"h", "c", none, none, none, some "yes", none, false, none, 60⟩)[j + 1]?
            = some ("StrictHostKeyChecking=" ++ "yes") :=
  shkc_override_after_default envHome
    ⟨"h", "c", none, none, none, some "yes", none, false, none, 60⟩ "yes" rfl (Or.inl rfl)

/-- The request id as `handle` reads it: the `"id"` entry of a dict
request (`None` when absent), `None`-equivalent for a non-dict request. -/
def reqIdOf : Value → Value
  | .obj fs => (fs.lookup "id").getD .null
  | _ => .null

/-- Claim C9: an unparsable input line yields the parse-error response
(code -32700) containing no `id` field at all, while every parsed request
whose id is missing or null receives the substituted default identifier 0
in its response instead of null. -/
theorem jsonrpc_id_handling (env : FsEnv) (s : String) (beh : ProcBehavior)
    (req : Value) (hid : reqIdOf req = .null) :
    processLine env s beh none = (.noId (-32700) "Parse error: Invalid JSON", false)
    ∧ (processLine env s beh none).1.hasIdField = false
    ∧ (handle env s beh req).1.idVal = some (.int 0) := by
  refine ⟨rfl, rfl, ?_⟩
  cases req with
  | obj fs =>
    simp only [reqIdOf] at hid
    simp only [handle, hid, Value.isNull]
    repeat' split
    all_goals simp_all [Resp.idVal]
  | null => rfl
  | bool b => rfl
  | int n => rfl
  | str s => rfl
  | arr xs => rfl

/-- Claim C9 witness: a well-formed `tools/list` request with no id is
answered with id 0. -/
theorem jsonrpc_id_handling_witness :
    reqIdOf (.obj [("jsonrpc", .str "2.0"), ("method", .str "tools/list")]) = .null
    ∧ (handle envHome "" (.completed 0 "" "" 1)
        (.obj [("jsonrpc", .str "2.0"), ("method", .str "tools/list")])).1.idVal
      = some (.int 0) :=
  ⟨rfl,
   (jsonrpc_id_handling envHome "" (.completed 0 "" "" 1)
      (.obj [("jsonrpc", .str "2.0"), ("method", .str "tools/list")]) rfl).2.2⟩

/-- Claim C5: the parameter validator is fail-fast in the
specification's fixed constraint order — on every untyped input map it
returns exactly the error message of the first failing constraint of
`specChecks` (required fields, host, command, user, port, timeout,
ssh_dir, strict_host_key_checking, proxy_jump, allocate_tty, extra_opts),
so no later violation is ever reported while an earlier one exists, and
it returns `none` precisely when every constraint passes. -/
theorem validation_first_failure (d : Dict) :
    validate_ssh_parameters d = specFirstViolation d
    ∧ (validate_ssh_parameters d = none ↔ ∀ c ∈ specChecks, c d = none) := by
  have h : validate_ssh_parameters d = specFirstViolation d := by
    unfold validate_ssh_parameters specFirstViolation specChecks
      specCheckRequired specCheckHost specCheckCommand specCheckUser
      specCheckPort specCheckTimeout specCheckSshDir specCheckShkc
      specCheckProxyJump specCheckAllocateTty specCheckExtraOpts
    simp only [List.findSome?_cons, List.findSome?_nil]
    by_cases h1 : (!(pyGet d "host").truthy) = true
    · simp only [if_pos h1]
    simp only [if_neg h1]
    by_cases h2 : (!(pyGet d "command").truthy) = true
    · simp only [if_pos h2]
    simp only [if_neg h2]
    by_cases h3 : (!(pyGet d "host").isStr || (pyGet d "host").asStr.pyStrip.pyLen == 0) = true
    · simp only [if_pos h3]
    simp only [if_neg h3]
    by_cases h4 : (pyGet d "host").asStr.pyLen > MAX_HOST_LENGTH
    · simp only [if_pos h4]
    simp only [if_neg h4]
    by_cases h5 : (!(pyGet d "command").isStr || (pyGet d "command").asStr.pyStrip.pyLen == 0) = true
    · simp only [if_pos h5]
    simp only [if_neg h5]
    by_cases h6 : (pyGet d "command").asStr.pyLen > MAX_COMMAND_LENGTH
    · simp only [if_pos h6]
    simp only [if_neg h6]
    by_cases h7 : (!(pyGet d "user").isNull &&
        (!(pyGet d "user").isStr || decide ((pyGet d "user").asStr.pyLen > MAX_USER_LENGTH))) = true
    · simp only [if_pos h7]
    simp only [if_neg h7]
    by_cases h8 : (!(pyGet d "port").isNull &&
        (!(pyGet d "port").isIntLike || decide ((pyGet d "port").asInt < 1) ||
          decide ((pyGet d "port").asInt > 65535))) = true
    · simp only [if_pos h8]
    simp only [if_neg h8]
    by_cases h9 : (!(pyGetD d "timeout" (Value.int 60)).isIntLike ||
          decide ((pyGetD d "timeout" (Value.int 60)).asInt < MIN_TIMEOUT) ||
        decide ((pyGetD d "timeout" (Value.int 60)).asInt > MAX_TIMEOUT)) = true
    · simp only [if_pos h9]
    simp only [if_neg h9]
    by_cases h10 : (!(pyGet d "ssh_dir").isNull &&
        (!(pyGet d "ssh_dir").isStr ||
          decide ((pyGet d "ssh_dir").asStr.pyLen > MAX_SSH_DIR_LENGTH))) = true
    · simp only [if_pos h10]
    simp only [if_neg h10]
    by_cases h11 : (!(pyGet d "strict_host_key_checking").isNull &&
        !((pyGet d "strict_host_key_checking").eqStr "yes" ||
            (pyGet d "strict_host_key_checking").eqStr "no" ||
          (pyGet d "strict_host_key_checking").eqStr "accept-new")) = true
    · simp only [if_pos h11]
    simp only [if_neg h11]
    by_cases h12 : (!(pyGet d "proxy_jump").isNull &&
        (!(pyGet d "proxy_jump").isStr ||
          decide ((pyGet d "proxy_jump").asStr.pyLen > MAX_HOST_LENGTH))) = true
    · simp only [if_pos h12]
    simp only [if_neg h12]
    by_cases h13 : (!(pyGet d "allocate_tty").isNull && !(pyGet d "allocate_tty").isBool) = true
    · simp only [if_pos h13]
    simp only [if_neg h13]
    by_cases h14 : (!(pyGet d "extra_opts").isNull && !(pyGet d "extra_opts").isArr) = true
    · simp only [if_pos h14]
    simp only [if_neg h14]
    by_cases h15 : (!(pyGet d "extra_opts").isNull &&
        ((pyGet d "extra_opts").asArr.any fun o => !o.isStr || decide (o.asStr.pyLen > 256))) = true
    · simp only [if_pos h15]
    simp only [if_neg h15]
  refine ⟨h, ?_⟩
  rw [h]
  unfold specFirstViolation
  exact List.findSome?_eq_none_iff

end SshApi
